import Mathlib

/-!
Verification of the pressure-relief escalation engine of a GKE disk sidecar.

The development shallowly embeds the Go program (package main of the
repository): pure computations become Lean functions over `Int`/`Nat`/`Rat`
(the Go code computes its sizes and percentages in `float64`; the embedding
uses exact rational arithmetic for the same formulas), external collaborators
(the Kubernetes API, the GCE compute API, `statfs`, `resize2fs`, `findmnt`)
become explicit oracles passed in as data, and fallible Go calls returning
`(T, error)` become `Except String T` (a Go `nil` error is `Except.ok`).
-/

/- ### Block Device Resizer: size computation (resizePersistentDisk, lines 225-227)

Go source:
  expand := math.Max(1, float64(disk.SizeGb)*(float64(expandBy)/100.0))
  newSize := disk.SizeGb + int64(math.Ceil(expand))
-/

/-- Embeds `int64(math.Ceil(math.Max(1, float64(sizeGb)*(float64(expandBy)/100.0))))`,
the number of gigabytes added to the disk. -/
def expandGrowth (sizeGb expandBy : ℤ) : ℤ :=
  ⌈max 1 ((sizeGb : ℚ) * ((expandBy : ℚ) / 100))⌉

/-- Embeds `newSize := disk.SizeGb + int64(math.Ceil(expand))`. -/
def computeNewSizeGb (sizeGb expandBy : ℤ) : ℤ :=
  sizeGb + expandGrowth sizeGb expandBy

/- ### Usage Sampler (getFilesystemUsage, lines 290-299)

Go source:
  usage := int((1.0 - (float64(stat.Bavail) / float64(stat.Blocks))) * 100.0)
-/

/-- The fields of `syscall.Statfs_t` the sampler reads. -/
structure StatFs where
  Bavail : ℕ
  Blocks : ℕ
deriving DecidableEq

/-- Go's `int(x)` conversion of a nonnegative-or-negative real: truncation
toward zero. -/
def truncToZero (q : ℚ) : ℤ :=
  if q < 0 then -⌊-q⌋ else ⌊q⌋

/-- Embeds the usage computation of `getFilesystemUsage` on a successful
`Statfs` result. -/
def getFilesystemUsage (stat : StatFs) : ℤ :=
  truncToZero ((1 - ((stat.Bavail : ℚ) / (stat.Blocks : ℚ))) * 100)

/- ### Theorems for the growth computation -/

theorem ceil_max_one (x : ℚ) : ⌈max 1 x⌉ = max 1 ⌈x⌉ := by
  rcases le_total x 1 with h | h
  · rw [max_eq_left h, Int.ceil_one]
    have h2 : ⌈x⌉ ≤ 1 := by
      have := Int.ceil_mono h
      simpa using this
    rw [max_eq_left h2]
  · rw [max_eq_right h]
    have h2 : 1 ≤ ⌈x⌉ := by
      have := Int.ceil_mono h
      simpa using this
    rw [max_eq_right h2]

/-- Claim C2: for every current disk size S (whole gigabytes, S >= 1) and
expand percentage p >= 0, the resizer computes a growth amount equal to
`max(1, ceil(S*p/100))` gigabytes and requests the new size S plus that
growth; in particular S=10, p=20 yields growth 2 and new size 12, and
S=1, p=5 yields growth 1 and new size 2. -/
theorem expandGrowth_eq_spec (S p : ℤ) (hS : 1 ≤ S) (hp : 0 ≤ p) :
    expandGrowth S p = max 1 ⌈((S : ℚ) * (p : ℚ)) / 100⌉ ∧
    computeNewSizeGb S p = S + max 1 ⌈((S : ℚ) * (p : ℚ)) / 100⌉ ∧
    expandGrowth 10 20 = 2 ∧ computeNewSizeGb 10 20 = 12 ∧
    expandGrowth 1 5 = 1 ∧ computeNewSizeGb 1 5 = 2 := by
  have key : ∀ a b : ℤ, expandGrowth a b = max 1 ⌈((a : ℚ) * (b : ℚ)) / 100⌉ := by
    intro a b
    rw [expandGrowth, ceil_max_one, mul_div_assoc]
  refine ⟨key S p, ?_, ?_, ?_, ?_, ?_⟩
  · rw [computeNewSizeGb, key S p]
  · rw [key 10 20]
    norm_num
  · rw [computeNewSizeGb, key 10 20]
    norm_num
  · rw [key 1 5]
    have h1 : ((1 : ℤ) : ℚ) * ((5 : ℤ) : ℚ) / 100 = (1 : ℚ) / 20 := by norm_num
    have h2 : ⌈(1 : ℚ) / 20⌉ = 1 := by rw [Int.ceil_eq_iff] <;> norm_num
    rw [h1, h2]
    norm_num
  · rw [computeNewSizeGb, key 1 5]
    have h1 : ((1 : ℤ) : ℚ) * ((5 : ℤ) : ℚ) / 100 = (1 : ℚ) / 20 := by norm_num
    have h2 : ⌈(1 : ℚ) / 20⌉ = 1 := by rw [Int.ceil_eq_iff] <;> norm_num
    rw [h1, h2]
    norm_num

/-- Witness for the growth-computation claim at S=10, p=20. -/
theorem expandGrowth_eq_spec_witness :
    expandGrowth 10 20 = max 1 ⌈((10 : ℚ) * (20 : ℚ)) / 100⌉ ∧
    computeNewSizeGb 10 20 = 10 + max 1 ⌈((10 : ℚ) * (20 : ℚ)) / 100⌉ ∧
    expandGrowth 10 20 = 2 ∧ computeNewSizeGb 10 20 = 12 ∧
    expandGrowth 1 5 = 1 ∧ computeNewSizeGb 1 5 = 2 :=
  expandGrowth_eq_spec 10 20 (by norm_num) (by norm_num)

/- ### Theorems for the usage sampler -/

/-- Claim C6: on a statfs result with positive total blocks and available
blocks not exceeding the total, the sampler returns
`(1 - Bavail/Blocks) * 100` truncated toward zero, an integer in `0..100`
(when the path cannot be statted the Go function instead returns the stat
error; the embedding is a pure function of the statfs result, with no state). -/
theorem getFilesystemUsage_range (a b : ℕ) (hb : 0 < b) (hab : a ≤ b) :
    getFilesystemUsage ⟨a, b⟩ = ⌊(1 - ((a : ℚ) / (b : ℚ))) * 100⌋ ∧
    0 ≤ getFilesystemUsage ⟨a, b⟩ ∧ getFilesystemUsage ⟨a, b⟩ ≤ 100 := by
  have hbq : (0 : ℚ) < (b : ℚ) := by exact_mod_cast hb
  have habq : (a : ℚ) ≤ (b : ℚ) := by exact_mod_cast hab
  have hdiv1 : (a : ℚ) / (b : ℚ) ≤ 1 := (div_le_one hbq).mpr habq
  have hdiv0 : 0 ≤ (a : ℚ) / (b : ℚ) := by positivity
  have hq0 : 0 ≤ (1 - ((a : ℚ) / (b : ℚ))) * 100 := by
    have : 0 ≤ 1 - ((a : ℚ) / (b : ℚ)) := by linarith
    linarith
  have hq100 : (1 - ((a : ℚ) / (b : ℚ))) * 100 ≤ 100 := by
    have : 1 - ((a : ℚ) / (b : ℚ)) ≤ 1 := by linarith
    linarith
  have heq : getFilesystemUsage ⟨a, b⟩ = ⌊(1 - ((a : ℚ) / (b : ℚ))) * 100⌋ := by
    rw [getFilesystemUsage, truncToZero, if_neg (not_lt.mpr hq0)]
  refine ⟨heq, ?_, ?_⟩
  · rw [heq]
    exact Int.floor_nonneg.mpr hq0
  · rw [heq]
    have := Int.floor_mono hq100
    simpa using this

/-- Witness for the usage-sampler claim: 20 of 100 blocks available gives
usage 80. -/
theorem getFilesystemUsage_range_witness :
    getFilesystemUsage ⟨20, 100⟩ = ⌊(1 - ((20 : ℚ) / (100 : ℚ))) * 100⌋ ∧
    0 ≤ getFilesystemUsage ⟨20, 100⟩ ∧ getFilesystemUsage ⟨20, 100⟩ ≤ 100 :=
  getFilesystemUsage_range 20 100 (by norm_num) (by norm_num)

/- ### MountedVolume (mountedGCEVolume, lines 44-51) -/

/-- Embeds the `mountedGCEVolume` record built by the Volume Resolver. -/
structure mountedGCEVolume where
  Name : String
  MountedPath : String
  DevicePath : String
  PDName : String
  GCPRegion : String
  GCPZone : String
deriving DecidableEq

/- ### ProviderOperation and the polling loop (resizePersistentDisk, lines 239-254)

Go source of the loop:
  for op.Status != "DONE" || op.Error != nil {
    time.Sleep(30 * time.Second)
    op, err = zoneOperationsService.Get(projectID, volume.GCPZone, op.Name).Do()
    if err != nil { return err }
    if op == nil { return fmt.Errorf("nil operation returned by GCPZoneOperationsService") }
  }
-/

/-- One sub-error record of a failed provider operation (code/message pair,
`compute.OperationErrorErrors`). -/
structure OpSubError where
  Code : String
  Message : String
deriving DecidableEq

/-- `compute.OperationError`: the ordered sub-error records; entries may be
nil in the Go slice of pointers. -/
structure OperationError where
  Errors : List (Option OpSubError)
deriving DecidableEq

/-- `compute.Operation` as the program reads it: name, status string and the
optional error block. -/
structure GCEOperation where
  Name : String
  Status : String
  Error : Option OperationError
deriving DecidableEq

/-- One reply of `zoneOperationsService.Get(...).Do()`: a transport error, a
nil operation, or an operation value. -/
inductive PollResponse where
  | apiError (msg : String)
  | nilOperation
  | polled (op : GCEOperation)
deriving DecidableEq

/-- How the polling loop of `resizePersistentDisk` ends on an observed finite
reply sequence: it exits normally with the final operation, returns one of the
two in-loop errors, or is still polling after the whole sequence was consumed. -/
inductive PollResult where
  | finished (op : GCEOperation)
  | apiError (msg : String)
  | nilOperation
  | pending
deriving DecidableEq

/-- One provider disk-API call, with the identifiers it is addressed by. -/
inductive ProviderCall where
  | getDisk (project zone disk : String)
  | resizeDisk (project zone disk : String) (newSizeGb : ℤ)
  | getOperation (project zone opName : String)
deriving DecidableEq

def callProject : ProviderCall → String
  | .getDisk p _ _ => p
  | .resizeDisk p _ _ _ => p
  | .getOperation p _ _ => p

def callZone : ProviderCall → String
  | .getDisk _ z _ => z
  | .resizeDisk _ z _ _ => z
  | .getOperation _ z _ => z

/-- Embeds the polling loop of lines 243-254: the loop continues while
`op.Status != "DONE" || op.Error != nil`; each iteration issues
`GetOperation(projectID, zone, op.Name)` and consumes the next reply.
Also returns the trace of `getOperation` calls issued. -/
def pollLoop (project zone : String) :
    GCEOperation → List PollResponse → PollResult × List ProviderCall
  | op, responses =>
    if op.Status = "DONE" ∧ op.Error = none then (.finished op, [])
    else
      match responses with
      | [] => (.pending, [])
      | r :: rest =>
        let call := ProviderCall.getOperation project zone op.Name
        match r with
        | .apiError e => (.apiError e, [call])
        | .nilOperation => (.nilOperation, [call])
        | .polled op2 =>
          let next := pollLoop project zone op2 rest
          (next.1, call :: next.2)

/- ### Error Aggregator (resizePersistentDisk, lines 256-267)

Go source:
  if op.Error != nil {
    merr := &multierror.Error{}
    for _, v := range op.Error.Errors {
      if v == nil { continue }
      merr = multierror.Append(merr, errors.New(v.Message))
    }
    return multierror.Flatten(merr)
  }
-/

/-- `hashicorp/go-multierror`'s `*multierror.Error`: the collected errors, here
always plain errors carrying just their message. -/
structure MultiError where
  errors : List String
deriving DecidableEq

/-- `multierror.Append(merr, errors.New(msg))` for a plain (non-multi) error:
appends the error to the list. -/
def multierrorAppendErr (m : MultiError) (msg : String) : MultiError :=
  ⟨m.errors ++ [msg]⟩

/-- One iteration of the loop of lines 258-264: a nil sub-error entry is
skipped (`continue`), any other entry's message is appended. -/
def aggStep (merr : MultiError) (v : Option OpSubError) : MultiError :=
  match v with
  | none => merr
  | some w => multierrorAppendErr merr w.Message

/-- The loop of lines 257-264: starting from the fresh empty `&multierror.Error{}`,
fold the sub-error entries through `aggStep`. -/
def aggregateME (errs : List (Option OpSubError)) : MultiError :=
  errs.foldl aggStep ⟨[]⟩

/-- `multierror.Flatten(merr)` applied to a `*multierror.Error` holding only
plain errors returns a fresh, never-nil `*multierror.Error` with the same
list. The Go `error` interface value is modelled as `Option MultiError`
(`none` = nil error); `Flatten` never produces the nil interface for a
non-nil `*Error` argument, so the result of line 266 is always `some`. -/
def aggregateOpErrors (errs : List (Option OpSubError)) : Option MultiError :=
  some (aggregateME errs)

/-- `strings.Join(points, "\n\t")` as used by go-multierror's ListFormatFunc. -/
def joinSep : List String → String
  | [] => ""
  | [p] => p
  | p :: q :: rest => p ++ "\n\t" ++ joinSep (q :: rest)

/-- go-multierror's default `ListFormatFunc`: the textual representation of
the aggregated error. -/
def multiErrorText (m : MultiError) : String :=
  match m.errors with
  | [e] => "1 error occurred:\n\t* " ++ e ++ "\n\n"
  | es => toString es.length ++ " errors occurred:\n\t" ++
      joinSep (es.map (fun e => "* " ++ e)) ++ "\n\n"

/- ### Block Device Resizer (resizePersistentDisk, lines 216-271) -/

/-- The disk record as read by the resizer (`disk.SizeGb`). -/
structure GCEDisk where
  SizeGb : ℤ
deriving DecidableEq

/-- A Go error value as `resizePersistentDisk` returns it: a plain message or
the aggregated multierror of line 266. -/
inductive GoError where
  | msg (s : String)
  | multi (m : MultiError)
deriving DecidableEq

/-- The external GCE services and process-wide configuration the resizer
reads: `projectID`, `expandBy`, `diskService.Get`, `diskService.Resize`
(each keyed by project, zone and disk name). -/
structure ResizeEnv where
  projectID : String
  expandBy : ℤ
  getDisk : String → String → String → Except String GCEDisk
  resizeDisk : String → String → String → ℤ → Except String (Option GCEOperation)

/-- Embeds `resizePersistentDisk(volume)`: get the disk, compute the new size,
submit the resize, poll to a terminal state, then the error-aggregation block.
The first component is `none` when the polling loop has not exited within the
observed reply sequence (the Go loop would still be sleeping and polling);
otherwise it is the Go return value. The second component is the trace of
provider calls issued. -/
def resizePersistentDisk (env : ResizeEnv) (volume : mountedGCEVolume)
    (responses : List PollResponse) :
    Option (Except GoError Unit) × List ProviderCall :=
  let c1 := ProviderCall.getDisk env.projectID volume.GCPZone volume.PDName
  match env.getDisk env.projectID volume.GCPZone volume.PDName with
  | .error e => (some (.error (.msg e)), [c1])
  | .ok disk =>
    let newSize := computeNewSizeGb disk.SizeGb env.expandBy
    let c2 := ProviderCall.resizeDisk env.projectID volume.GCPZone volume.PDName newSize
    match env.resizeDisk env.projectID volume.GCPZone volume.PDName newSize with
    | .error e => (some (.error (.msg e)), [c1, c2])
    | .ok none => (some (.error (.msg "nil operation returned by GCPDisksService")), [c1, c2])
    | .ok (some op) =>
      let polled := pollLoop env.projectID volume.GCPZone op responses
      match polled.1 with
      | .pending => (none, c1 :: c2 :: polled.2)
      | .apiError e => (some (.error (.msg e)), c1 :: c2 :: polled.2)
      | .nilOperation =>
        (some (.error (.msg "nil operation returned by GCPZoneOperationsService")),
          c1 :: c2 :: polled.2)
      | .finished op2 =>
        match op2.Error with
        | some oe => (some (.error (.multi (aggregateME oe.Errors))), c1 :: c2 :: polled.2)
        | none => (some (.ok ()), c1 :: c2 :: polled.2)

/- ### Claim C1: behaviour of the polling loop at a terminal failed operation -/

/-- An operation report that is terminal per the provider protocol
(`Status == "DONE"`) and carries one sub-error. -/
def opDoneWithError : GCEOperation :=
  { Name := "operation-1", Status := "DONE",
    Error := some ⟨[some ⟨"QUOTA_EXCEEDED", "quota exceeded"⟩]⟩ }

/-- Whenever the polling loop exits normally, the final operation carries no
error block: the loop condition `op.Status != "DONE" || op.Error != nil`
only becomes false when the status is DONE and the error is nil, so the
error-aggregation block after the loop (lines 256-267) can never run. -/
theorem pollLoop_finished_error_none (project zone : String) :
    ∀ (responses : List PollResponse) (op op2 : GCEOperation),
      (pollLoop project zone op responses).1 = PollResult.finished op2 →
      op2.Error = none := by
  intro responses
  induction responses with
  | nil =>
    intro op op2 h
    simp only [pollLoop] at h
    split at h
    · rename_i hcond
      injection h with h2
      subst h2
      exact hcond.2
    · exact absurd h (by simp)
  | cons r rest ih =>
    intro op op2 h
    simp only [pollLoop] at h
    split at h
    · rename_i hcond
      injection h with h2
      subst h2
      exact hcond.2
    · cases r with
      | apiError e => exact absurd h (by simp)
      | nilOperation => exact absurd h (by simp)
      | polled o2 => exact ih o2 op2 h

/-- Claim C1 (evidence of the code bug): on a report whose status is the
terminal `"DONE"` but which carries sub-errors, the polling loop of
`resizePersistentDisk` does not stop: with no further replies it is still
polling, and when every further reply repeats the same terminal failed
report it is still polling after consuming them all. -/
theorem pollLoop_continues_past_terminal_failure :
    opDoneWithError.Status = "DONE" ∧ opDoneWithError.Error ≠ none ∧
    (pollLoop "my-project" "us-west1-a" opDoneWithError []).1 = PollResult.pending ∧
    (pollLoop "my-project" "us-west1-a" opDoneWithError
      [PollResponse.polled opDoneWithError, PollResponse.polled opDoneWithError]).1 =
      PollResult.pending := by
  refine ⟨rfl, by decide, by decide, by decide⟩

/- ### Claim C10: addressing of provider calls -/

/-- A concrete provider environment: a 10 GB disk whose resize operation
completes immediately. -/
def resizeEnvEx : ResizeEnv :=
  { projectID := "proj-1", expandBy := 20,
    getDisk := fun _ _ _ => .ok ⟨10⟩,
    resizeDisk := fun _ _ _ _ => .ok (some ⟨"op-1", "DONE", none⟩) }

def volWest : mountedGCEVolume :=
  ⟨"data", "/data", "/dev/sdb", "pd-1", "us-west1", "us-west1-a"⟩

/-- The same disk record with a different region label only. -/
def volOtherRegion : mountedGCEVolume :=
  ⟨"data", "/data", "/dev/sdb", "pd-1", "europe-west4", "us-west1-a"⟩

/-- Claim C10 (counterexample): two volumes that differ only in their region
field are processed identically by `resizePersistentDisk` — the same calls
are issued and the same result returned — so the resizer does not depend on
the region field. -/
theorem resizePersistentDisk_ignores_region_cex :
    volWest.GCPRegion ≠ volOtherRegion.GCPRegion ∧
    volWest.GCPZone = volOtherRegion.GCPZone ∧
    volWest.PDName = volOtherRegion.PDName ∧
    resizePersistentDisk resizeEnvEx volWest [] =
      resizePersistentDisk resizeEnvEx volOtherRegion [] := by
  refine ⟨by decide, rfl, rfl, rfl⟩

/-- Every `getOperation` call the polling loop issues is addressed with the
project and zone it was given. -/
theorem pollLoop_calls_addressed (project zone : String) :
    ∀ (responses : List PollResponse) (op : GCEOperation),
      ∀ c ∈ (pollLoop project zone op responses).2,
        callProject c = project ∧ callZone c = zone := by
  intro responses
  induction responses with
  | nil =>
    intro op c hc
    simp only [pollLoop] at hc
    split at hc <;> simp at hc
  | cons r rest ih =>
    intro op c hc
    simp only [pollLoop] at hc
    split at hc
    · simp at hc
    · cases r with
      | apiError e =>
        simp at hc
        subst hc
        exact ⟨rfl, rfl⟩
      | nilOperation =>
        simp at hc
        subst hc
        exact ⟨rfl, rfl⟩
      | polled o2 =>
        simp only [List.mem_cons] at hc
        rcases hc with rfl | hc2
        · exact ⟨rfl, rfl⟩
        · exact ih o2 c hc2

/-- Claim C10 (amended): `resizePersistentDisk` addresses every provider call
with the configured project and the volume's zone (the disk calls also with
its disk name), and never reads the region field: volumes agreeing on zone
and disk name are processed identically whatever their regions. -/
theorem resizePersistentDisk_region_agnostic (env : ResizeEnv)
    (v v' : mountedGCEVolume) (responses : List PollResponse)
    (hz : v.GCPZone = v'.GCPZone) (hp : v.PDName = v'.PDName) :
    resizePersistentDisk env v responses = resizePersistentDisk env v' responses ∧
    ∀ c ∈ (resizePersistentDisk env v responses).2,
      callProject c = env.projectID ∧ callZone c = v.GCPZone := by
  constructor
  · simp only [resizePersistentDisk, hz, hp]
  · intro c hc
    simp only [resizePersistentDisk] at hc
    split at hc
    · simp at hc
      subst hc
      exact ⟨rfl, rfl⟩
    · split at hc
      · simp at hc
        rcases hc with rfl | rfl <;> exact ⟨rfl, rfl⟩
      · simp at hc
        rcases hc with rfl | rfl <;> exact ⟨rfl, rfl⟩
      · split at hc <;> (try split at hc) <;>
          (simp at hc;
            rcases hc with rfl | rfl | hc2 <;>
              first
                | exact ⟨rfl, rfl⟩
                | exact pollLoop_calls_addressed _ _ _ _ c hc2)

/-- Witness for the amended addressing claim at a concrete environment and a
concrete pair of volumes differing only in region. -/
theorem resizePersistentDisk_region_agnostic_witness :
    (resizePersistentDisk resizeEnvEx volWest [] =
        resizePersistentDisk resizeEnvEx volOtherRegion [] ∧
      ∀ c ∈ (resizePersistentDisk resizeEnvEx volWest []).2,
        callProject c = resizeEnvEx.projectID ∧ callZone c = volWest.GCPZone) :=
  resizePersistentDisk_region_agnostic resizeEnvEx volWest volOtherRegion [] rfl rfl

/- ### Claim C5: the Error Aggregator -/

/-- The fold of the aggregation loop appends exactly the messages of the
non-nil sub-error entries, in order. -/
theorem aggregateME_go (errs : List (Option OpSubError)) :
    ∀ init : List String,
      (errs.foldl aggStep ⟨init⟩).errors =
        init ++ (errs.filterMap id).map OpSubError.Message := by
  induction errs with
  | nil =>
    intro init
    simp
  | cons v rest ih =>
    intro init
    cases v with
    | none =>
      simp only [List.foldl_cons, List.filterMap_cons]
      exact ih init
    | some w =>
      simp only [List.foldl_cons, List.filterMap_cons]
      show (rest.foldl aggStep ⟨init ++ [w.Message]⟩).errors = _
      rw [ih (init ++ [w.Message])]
      simp

/-- The aggregate's error list is the in-order list of non-nil sub-error
messages. -/
theorem aggregateME_errors (errs : List (Option OpSubError)) :
    (aggregateME errs).errors = (errs.filterMap id).map OpSubError.Message := by
  have := aggregateME_go errs []
  simpa [aggregateME] using this

/-- A member of a list occurs as a substring of its `strings.Join`. -/
theorem joinSep_decomp (x : String) :
    ∀ l : List String, x ∈ l → ∃ p q, joinSep l = p ++ x ++ q := by
  intro l
  induction l with
  | nil => intro h; cases h
  | cons a rest ih =>
    intro h
    rcases List.mem_cons.mp h with rfl | hx
    · cases rest with
      | nil =>
        refine ⟨"", "", ?_⟩
        rw [joinSep, String.empty_append, String.append_empty]
      | cons b bs =>
        refine ⟨"", "\n\t" ++ joinSep (b :: bs), ?_⟩
        rw [joinSep, String.empty_append, String.append_assoc]
    · rcases ih hx with ⟨p, q, hpq⟩
      cases rest with
      | nil => cases hx
      | cons b bs =>
        refine ⟨a ++ "\n\t" ++ p, q, ?_⟩
        rw [joinSep, hpq]
        simp [String.append_assoc]

/-- Every message of a multierror occurs as a substring of go-multierror's
textual rendering of it. -/
theorem multiErrorText_contains (m : MultiError) (x : String) (hx : x ∈ m.errors) :
    ∃ p q, multiErrorText m = p ++ x ++ q := by
  rcases m with ⟨es⟩
  cases es with
  | nil => cases hx
  | cons a rest =>
    cases rest with
    | nil =>
      have hax : x = a := List.mem_singleton.mp hx
      subst hax
      exact ⟨"1 error occurred:\n\t* ", "\n\n", rfl⟩
    | cons b bs =>
      have hmem : ("* " ++ x) ∈ (a :: b :: bs).map (fun e => "* " ++ e) :=
        List.mem_map_of_mem _ hx
      rcases joinSep_decomp _ _ hmem with ⟨p, q, hpq⟩
      refine ⟨toString (a :: b :: bs).length ++ " errors occurred:\n\t" ++ p ++ "* ",
        q ++ "\n\n", ?_⟩
      show toString (a :: b :: bs).length ++ " errors occurred:\n\t" ++
          joinSep ((a :: b :: bs).map (fun e => "* " ++ e)) ++ "\n\n" = _
      rw [hpq]
      simp [String.append_assoc]

/-- Claim C5 (counterexample to the nil-result part): on an empty sub-error
sequence the aggregation block still returns a non-nil error value — a fresh
empty `*multierror.Error` — where the claim requires a nil/no-error result. -/
theorem aggregateOpErrors_empty_not_nil :
    aggregateOpErrors [] ≠ none ∧ aggregateOpErrors [] = some ⟨[]⟩ := by
  exact ⟨by decide, rfl⟩

/-- Claim C5 (amended): the aggregator skips nil entries and returns a single
(always non-nil) error value whose message list is exactly the ordered list of
the remaining messages, each of which occurs in the error's textual
representation; on an empty or all-nil input the result is the empty
aggregate error value, not a nil error. -/
theorem aggregateOpErrors_spec (errs : List (Option OpSubError)) :
    ∃ m, aggregateOpErrors errs = some m ∧
      m.errors = (errs.filterMap id).map OpSubError.Message ∧
      ∀ e ∈ errs.filterMap id, ∃ p q, multiErrorText m = p ++ e.Message ++ q := by
  refine ⟨aggregateME errs, rfl, aggregateME_errors errs, ?_⟩
  intro e he
  apply multiErrorText_contains
  rw [aggregateME_errors]
  exact List.mem_map_of_mem _ he

/- ### Escalation Controller (checkFilesystemUsage, lines 161-214, and the
monitor loop of main, lines 150-158) -/

deriving instance DecidableEq for Except

/-- The external world one volume sees during one tick: the results of the
successive `syscall.Statfs` calls (0, 1, 2), of the successive `resize2fs`
invocations (0, 1), and the provider environment plus operation-poll replies
consumed by `resizePersistentDisk`. -/
structure TickEnv where
  statfs : ℕ → Except String StatFs
  grows : ℕ → Except String Unit
  resizeEnv : ResizeEnv
  pollResponses : List PollResponse

/-- The observable actions of one escalation attempt: a usage sample
(`getFilesystemUsage`), a filesystem grow (`resizeFilesystem`), the block
device resize (`resizePersistentDisk`), and the fixed 10 s settle delay
(`time.Sleep`). -/
inductive VolAction where
  | sample
  | growFS
  | resizePD
  | settle
deriving DecidableEq

/-- Embeds `checkFilesystemUsage(volume)`: sample, stop below threshold,
first grow, resample, block-device resize, settle delay, second grow,
resample, and the exhaustion error. The first component is the Go return
value (`none` when the resize polling never exits within the observed
replies, line 243); the second is the trace of actions attempted. -/
def checkFilesystemUsage (threshold : ℤ) (volume : mountedGCEVolume) (env : TickEnv) :
    Option (Except GoError Unit) × List VolAction :=
  match env.statfs 0 with
  | .error e => (some (.error (.msg e)), [VolAction.sample])
  | .ok st0 =>
    if getFilesystemUsage st0 < threshold then
      (some (.ok ()), [VolAction.sample])
    else
      match env.grows 0 with
      | .error e => (some (.error (.msg e)), [VolAction.sample, VolAction.growFS])
      | .ok _ =>
        match env.statfs 1 with
        | .error e => (some (.error (.msg e)), [VolAction.sample, VolAction.growFS, VolAction.sample])
        | .ok st1 =>
          if getFilesystemUsage st1 < threshold then
            (some (.ok ()), [VolAction.sample, VolAction.growFS, VolAction.sample])
          else
            match (resizePersistentDisk env.resizeEnv volume env.pollResponses).1 with
            | none =>
              (none, [VolAction.sample, VolAction.growFS, VolAction.sample, VolAction.resizePD])
            | some (.error e) =>
              (some (.error e),
                [VolAction.sample, VolAction.growFS, VolAction.sample, VolAction.resizePD])
            | some (.ok _) =>
              match env.grows 1 with
              | .error e =>
                (some (.error (.msg e)),
                  [VolAction.sample, VolAction.growFS, VolAction.sample, VolAction.resizePD,
                    VolAction.settle, VolAction.growFS])
              | .ok _ =>
                match env.statfs 2 with
                | .error e =>
                  (some (.error (.msg e)),
                    [VolAction.sample, VolAction.growFS, VolAction.sample, VolAction.resizePD,
                      VolAction.settle, VolAction.growFS, VolAction.sample])
                | .ok st2 =>
                  if getFilesystemUsage st2 < threshold then
                    (some (.ok ()),
                      [VolAction.sample, VolAction.growFS, VolAction.sample, VolAction.resizePD,
                        VolAction.settle, VolAction.growFS, VolAction.sample])
                  else
                    (some (.error (.msg "failed to relieve pressure on persistent disk")),
                      [VolAction.sample, VolAction.growFS, VolAction.sample, VolAction.resizePD,
                        VolAction.settle, VolAction.growFS, VolAction.sample])

/-- Scans a trace and checks that no block-device resize is attempted before
at least one filesystem-grow attempt. -/
def noResizeBeforeGrowGo : Bool → List VolAction → Bool
  | _, [] => true
  | seenGrow, a :: rest =>
    match a with
    | VolAction.resizePD => if seenGrow then noResizeBeforeGrowGo seenGrow rest else false
    | VolAction.growFS => noResizeBeforeGrowGo true rest
    | _ => noResizeBeforeGrowGo seenGrow rest

def noResizeBeforeGrow (trace : List VolAction) : Bool :=
  noResizeBeforeGrowGo false trace

/-- The inner loop of main (lines 151-156): each volume is checked in turn;
an error result is only logged (`log.Printf`, non-fatal) and iteration
continues. The boolean is true when some volume's check never returned
within its observed replies (the loop is then stuck inside that volume). -/
def tickVolumes (thr : ℤ) (envOf : mountedGCEVolume → TickEnv) :
    List mountedGCEVolume → List (String × Except GoError Unit) × Bool
  | [] => ([], false)
  | v :: rest =>
    match (checkFilesystemUsage thr v (envOf v)).1 with
    | none => ([], true)
    | some r =>
      ((v.Name, r) :: (tickVolumes thr envOf rest).1, (tickVolumes thr envOf rest).2)

/-- The outer loop of main (lines 150-158), unrolled for the first n ticks:
the same immutable volume list is swept every tick; a tick only fails to
happen if an earlier tick blocked inside a volume. -/
def monitorTicks (thr : ℤ) (envAt : ℕ → mountedGCEVolume → TickEnv)
    (vols : List mountedGCEVolume) :
    ℕ → List (List (String × Except GoError Unit) × Bool)
  | 0 => []
  | n + 1 =>
    let prev := monitorTicks thr envAt vols n
    if prev.any (fun tk => tk.2) then prev
    else prev ++ [tickVolumes thr (envAt n) vols]

/- ### Claim C7: escalation ordering within a tick -/

/-- Claim C7: within one tick, a block-device resize is never attempted
before a filesystem-grow attempt; and when the first sample is below the
threshold, the tick performs the sample only (no grow, no resize). -/
theorem checkFilesystemUsage_ordering (thr : ℤ) (v : mountedGCEVolume) (env : TickEnv) :
    noResizeBeforeGrow (checkFilesystemUsage thr v env).2 = true ∧
    ∀ st, env.statfs 0 = Except.ok st → getFilesystemUsage st < thr →
      (checkFilesystemUsage thr v env).2 = [VolAction.sample] := by
  constructor
  · unfold checkFilesystemUsage
    repeat' split
    all_goals rfl
  · intro st hst hlt
    simp only [checkFilesystemUsage, hst]
    rw [if_pos hlt]

/-- A concrete tick environment whose first sample is below the threshold. -/
def tickEnvWitness : TickEnv :=
  { statfs := fun _ => .ok ⟨80, 100⟩, grows := fun _ => .ok (),
    resizeEnv := resizeEnvEx, pollResponses := [] }

/-- Witness for the ordering claim at a concrete below-threshold tick. -/
theorem checkFilesystemUsage_ordering_witness :
    noResizeBeforeGrow (checkFilesystemUsage 80 volWest tickEnvWitness).2 = true ∧
    ∀ st, tickEnvWitness.statfs 0 = Except.ok st → getFilesystemUsage st < 80 →
      (checkFilesystemUsage 80 volWest tickEnvWitness).2 = [VolAction.sample] :=
  checkFilesystemUsage_ordering 80 volWest tickEnvWitness

/- ### Claim C8: exhaustion after a full escalation -/

/-- Claim C8: when usage stays at or above the threshold through the first
grow, a successful block-device resize (the settle delay is the trace's
`settle` entry between `resizePD` and the second `growFS`), and the second
grow, the attempt returns the distinct "failed to relieve pressure on
persistent disk" error; in the monitor loop that error is only recorded and
the remaining volumes of the tick are still processed unchanged. -/
theorem checkFilesystemUsage_exhausted (thr : ℤ) (v : mountedGCEVolume) (env : TickEnv)
    (st0 st1 st2 : StatFs)
    (h0 : env.statfs 0 = Except.ok st0) (u0 : thr ≤ getFilesystemUsage st0)
    (hg0 : env.grows 0 = Except.ok ())
    (h1 : env.statfs 1 = Except.ok st1) (u1 : thr ≤ getFilesystemUsage st1)
    (hr : (resizePersistentDisk env.resizeEnv v env.pollResponses).1 = some (Except.ok ()))
    (hg1 : env.grows 1 = Except.ok ())
    (h2 : env.statfs 2 = Except.ok st2) (u2 : thr ≤ getFilesystemUsage st2) :
    checkFilesystemUsage thr v env =
      (some (Except.error (GoError.msg "failed to relieve pressure on persistent disk")),
        [VolAction.sample, VolAction.growFS, VolAction.sample, VolAction.resizePD,
          VolAction.settle, VolAction.growFS, VolAction.sample]) ∧
    ∀ (envOf : mountedGCEVolume → TickEnv) (rest : List mountedGCEVolume),
      envOf v = env →
      tickVolumes thr envOf (v :: rest) =
        ((v.Name, Except.error (GoError.msg "failed to relieve pressure on persistent disk"))
            :: (tickVolumes thr envOf rest).1,
          (tickVolumes thr envOf rest).2) := by
  have hmain : checkFilesystemUsage thr v env =
      (some (Except.error (GoError.msg "failed to relieve pressure on persistent disk")),
        [VolAction.sample, VolAction.growFS, VolAction.sample, VolAction.resizePD,
          VolAction.settle, VolAction.growFS, VolAction.sample]) := by
    simp only [checkFilesystemUsage, h0, hg0, h1, hg1, h2, hr]
    rw [if_neg (not_lt.mpr u0), if_neg (not_lt.mpr u1), if_neg (not_lt.mpr u2)]
  refine ⟨hmain, ?_⟩
  intro envOf rest hv
  simp only [tickVolumes, hv, hmain]

/-- A concrete tick for the exhaustion claim: 5 of 100 blocks available
(usage 95) before and after each remedy, every remedy succeeding. -/
def tickEnvExhaust : TickEnv :=
  { statfs := fun _ => .ok ⟨5, 100⟩, grows := fun _ => .ok (),
    resizeEnv := resizeEnvEx, pollResponses := [] }

/-- Witness for the exhaustion claim at a concrete environment. -/
theorem checkFilesystemUsage_exhausted_witness :
    tickEnvExhaust.statfs 0 = Except.ok ⟨5, 100⟩ ∧
    (80 : ℤ) ≤ getFilesystemUsage ⟨5, 100⟩ ∧
    tickEnvExhaust.grows 0 = Except.ok () ∧
    (resizePersistentDisk tickEnvExhaust.resizeEnv volWest
        tickEnvExhaust.pollResponses).1 = some (Except.ok ()) ∧
    (checkFilesystemUsage 80 volWest tickEnvExhaust =
      (some (Except.error (GoError.msg "failed to relieve pressure on persistent disk")),
        [VolAction.sample, VolAction.growFS, VolAction.sample, VolAction.resizePD,
          VolAction.settle, VolAction.growFS, VolAction.sample]) ∧
    ∀ (envOf : mountedGCEVolume → TickEnv) (rest : List mountedGCEVolume),
      envOf volWest = tickEnvExhaust →
      tickVolumes 80 envOf (volWest :: rest) =
        ((volWest.Name,
            Except.error (GoError.msg "failed to relieve pressure on persistent disk"))
            :: (tickVolumes 80 envOf rest).1,
          (tickVolumes 80 envOf rest).2)) := by
  have hu : (80 : ℤ) ≤ getFilesystemUsage ⟨5, 100⟩ := by
    norm_num [getFilesystemUsage, truncToZero]
  exact ⟨rfl, hu, rfl, rfl,
    checkFilesystemUsage_exhausted 80 volWest tickEnvExhaust ⟨5, 100⟩ ⟨5, 100⟩ ⟨5, 100⟩
      rfl hu rfl rfl hu rfl rfl rfl hu⟩

/- ### Claim C9: per-volume, per-tick error isolation in the monitor loop -/

/-- When every volume's check of a tick returns (with any result, errors
included), the tick records exactly one result per volume, in order, each
determined by that volume's own environment, and does not block. -/
theorem tickVolumes_complete (thr : ℤ) (envOf : mountedGCEVolume → TickEnv)
    (resultOf : mountedGCEVolume → Except GoError Unit) :
    ∀ vols : List mountedGCEVolume,
      (∀ u ∈ vols, (checkFilesystemUsage thr u (envOf u)).1 = some (resultOf u)) →
      tickVolumes thr envOf vols = (vols.map (fun u => (u.Name, resultOf u)), false) := by
  intro vols
  induction vols with
  | nil => intro _; rfl
  | cons v rest ih =>
    intro h
    have hv := h v (List.mem_cons_self v rest)
    have hr := ih (fun u hu => h u (List.mem_cons_of_mem v hu))
    simp only [tickVolumes, hv, hr, List.map_cons]

/-- Under the same no-blocking assumption for the first n ticks, the monitor
loop runs all n ticks over the unchanged volume list. -/
theorem monitorTicks_eq (thr : ℤ) (envAt : ℕ → mountedGCEVolume → TickEnv)
    (resultOf : ℕ → mountedGCEVolume → Except GoError Unit)
    (vols : List mountedGCEVolume) :
    ∀ n : ℕ,
      (∀ t2, t2 < n → ∀ u ∈ vols,
        (checkFilesystemUsage thr u (envAt t2 u)).1 = some (resultOf t2 u)) →
      monitorTicks thr envAt vols n =
        (List.range n).map
          (fun t2 => (vols.map (fun u => (u.Name, resultOf t2 u)), false)) := by
  intro n
  induction n with
  | zero => intro _; rfl
  | succ m ih =>
    intro h
    have hm := ih (fun t2 ht2 u hu => h t2 (Nat.lt_succ_of_lt ht2) u hu)
    have htick := tickVolumes_complete thr (envAt m) (resultOf m) vols
      (h m (Nat.lt_succ_self m))
    simp only [monitorTicks, hm, htick]
    have hfalse : (((List.range m).map
        (fun t2 => (vols.map (fun u => (u.Name, resultOf t2 u)), false))).any
          (fun tk => tk.2)) = false := by
      simp [List.any_map, Function.comp]
    rw [if_neg (by simp [hfalse])]
    rw [List.range_succ, List.map_append]
    simp

/-- Claim C9: for every tick t and volume index below the count, the monitor
loop (for any per-tick, per-volume environments whose checks return) has run
every tick, each tick holds exactly one record per volume of the unchanged
working set in order, and each volume's record is determined by its own
environment alone, error results included — no volume's failure removes a
volume, halts the loop, or affects another volume's record. -/
theorem monitorTicks_isolation (thr : ℤ) (envAt : ℕ → mountedGCEVolume → TickEnv)
    (resultOf : ℕ → mountedGCEVolume → Except GoError Unit)
    (vols : List mountedGCEVolume) (n t : ℕ) (ht : t < n)
    (h : ∀ t2, t2 < n → ∀ u ∈ vols,
      (checkFilesystemUsage thr u (envAt t2 u)).1 = some (resultOf t2 u)) :
    (monitorTicks thr envAt vols n).length = n ∧
    (monitorTicks thr envAt vols n).get? t =
      some (vols.map (fun u => (u.Name, resultOf t u)), false) := by
  rw [monitorTicks_eq thr envAt resultOf vols n h]
  constructor
  · rw [List.length_map, List.length_range]
  · rw [List.get?_map, List.get?_range ht]
    rfl

/-- A second monitored volume for the isolation witness. -/
def volLogs : mountedGCEVolume :=
  ⟨"logs", "/logs", "/dev/sdc", "pd-2", "us-west1", "us-west1-b"⟩

/-- A tick environment whose very first stat call fails. -/
def tickEnvStatErr : TickEnv :=
  { statfs := fun _ => .error "stat failed", grows := fun _ => .ok (),
    resizeEnv := resizeEnvEx, pollResponses := [] }

/-- Per-tick environments where the "data" volume always fails its stat and
the "logs" volume is below threshold. -/
def envAtEx : ℕ → mountedGCEVolume → TickEnv := fun _ u =>
  if u.Name = "data" then tickEnvStatErr else tickEnvWitness

/-- The per-volume results matching `envAtEx`. -/
def resultOfEx : ℕ → mountedGCEVolume → Except GoError Unit := fun _ u =>
  if u.Name = "data" then Except.error (GoError.msg "stat failed") else Except.ok ()

/-- Witness for the isolation claim: two volumes, one failing every tick, two
ticks; both ticks run and hold both volumes' records. -/
theorem monitorTicks_isolation_witness :
    (0 < 2 ∧ ∀ t2, t2 < 2 → ∀ u ∈ [volWest, volLogs],
      (checkFilesystemUsage 80 u (envAtEx t2 u)).1 = some (resultOfEx t2 u)) ∧
    (monitorTicks 80 envAtEx [volWest, volLogs] 2).length = 2 ∧
    (monitorTicks 80 envAtEx [volWest, volLogs] 2).get? 0 =
      some ([volWest, volLogs].map (fun u => (u.Name, resultOfEx 0 u)), false) := by
  have h : ∀ t2, t2 < 2 → ∀ u ∈ [volWest, volLogs],
      (checkFilesystemUsage 80 u (envAtEx t2 u)).1 = some (resultOfEx t2 u) := by
    have h20 : getFilesystemUsage ⟨80, 100⟩ < 80 := by
      norm_num [getFilesystemUsage, truncToZero]
    have hsf : tickEnvWitness.statfs 0 = Except.ok ⟨80, 100⟩ := rfl
    have hlog : (checkFilesystemUsage 80 volLogs tickEnvWitness).1 = some (Except.ok ()) := by
      simp only [checkFilesystemUsage, hsf]
      rw [if_pos h20]
    intro t2 _ u hu
    rcases List.mem_cons.mp hu with rfl | hu2
    · rfl
    · rcases List.mem_cons.mp hu2 with rfl | hu3
      · exact hlog
      · cases hu3
  exact ⟨⟨by decide, h⟩,
    monitorTicks_isolation 80 envAtEx resultOfEx [volWest, volLogs] 2 0 (by decide) h⟩

/- ### Volume Resolver (getMountedVolumes, lines 301-408, with mapVolumeMounts,
mapVolumes and resolveDevicePath as the external mount-table query) -/

/-- `core_v1.GCEPersistentDiskVolumeSource`: the fields the resolver checks. -/
structure GCEPersistentDiskSource where
  PDName : String
  FSType : String
  Partition : ℤ
  ReadOnly : Bool
deriving DecidableEq

/-- `core_v1.PersistentVolumeClaimVolumeSource`. -/
structure PVCSourceRef where
  ClaimName : String
deriving DecidableEq

/-- A pod-spec volume as the resolver reads it. -/
structure PodVolume where
  Name : String
  GCEPersistentDisk : Option GCEPersistentDiskSource
  PersistentVolumeClaim : Option PVCSourceRef
deriving DecidableEq

/-- A container volume mount. -/
structure VolumeMount where
  Name : String
  MountPath : String
deriving DecidableEq

/-- The claim resource: its status phase and the bound volume's name. -/
structure PVClaim where
  Phase : String
  VolumeName : String
deriving DecidableEq

/-- The persistent-volume resource: phase, disk source and labels map. -/
structure PersistentVolume where
  Phase : String
  GCEPersistentDisk : Option GCEPersistentDiskSource
  Labels : Option (List (String × String))
deriving DecidableEq

/-- The configuration and external collaborators of the resolution phase:
namespace/pod/container names (used in error messages), the orchestrator's
get-by-name reads, and `resolveDevicePath` (the findmnt query plus device
existence check, returning the device path or an error). -/
structure ResolveCtx where
  nsName : String
  podName : String
  containerName : String
  getPVC : String → String → Except String (Option PVClaim)
  getPV : String → Except String (Option PersistentVolume)
  resolveDevicePath : String → Except String String

/-- `mapVolumeMounts` (lines 432-438): a name-keyed map built by insertion in
slice order, so the last mount with a given name wins. -/
def mapVolumeMounts (volumeMounts : List VolumeMount) : String → Option VolumeMount :=
  fun k => (volumeMounts.filter (fun v => v.Name == k)).getLast?

/-- `mapVolumes` (lines 440-446), same construction for the pod's volumes. -/
def mapVolumes (volumes : List PodVolume) : String → Option PodVolume :=
  fun k => (volumes.filter (fun v => v.Name == k)).getLast?

/-- The zero value a `make([]mountedGCEVolume, n)` slice is filled with. -/
def mountedGCEVolumeZero : mountedGCEVolume :=
  ⟨"", "", "", "", "", ""⟩

/-- The loop body of `getMountedVolumes` (lines 306-405), one requested name
after the other, carrying the accumulated slice. The branch for a failing
`resolveDevicePath` (lines 388-391) is Go's `return nil, nil`: a nil slice
and a nil error, embedded as `Except.ok []`. -/
def getMVLoop (ctx : ResolveCtx) (mappedVolumes : String → Option PodVolume)
    (mappedVolumeMounts : String → Option VolumeMount)
    (acc : List mountedGCEVolume) :
    List String → Except String (List mountedGCEVolume)
  | [] => .ok acc
  | volumeName :: rest =>
    match mappedVolumes volumeName with
    | none => .error ("volume " ++ volumeName ++ " does not exist in pod " ++ ctx.podName)
    | some volume =>
      match mappedVolumeMounts volumeName with
      | none =>
        .error ("volume " ++ volumeName ++ " is not mounted to container " ++
          ctx.containerName)
      | some volumeMount =>
        if volume.GCEPersistentDisk.isSome then
          .error ("volume " ++ volumeName ++
            " cannot be a short-hand bound persistent volume, must use PersistentVolumeClaim")
        else
          match volume.PersistentVolumeClaim with
          | none => .error ("volume " ++ volumeName ++ " is not a GCEPersistentDisk")
          | some pvcRef =>
            match ctx.getPVC ctx.nsName pvcRef.ClaimName with
            | .error e => .error e
            | .ok none =>
              .error ("could not find PersistentVolumeClaim " ++ pvcRef.ClaimName ++
                " in namespace " ++ ctx.nsName)
            | .ok (some pvc) =>
              if pvc.Phase ≠ "Bound" then
                .error ("PersistentVolumeClaim " ++ pvcRef.ClaimName ++
                  " phase is not Bound, instead " ++ pvc.Phase)
              else
                match ctx.getPV pvc.VolumeName with
                | .error e => .error e
                | .ok none =>
                  .error ("could not find PersistentVolume " ++ pvc.VolumeName ++
                    " which is meant to be bound to PersistentVolumeClaim " ++
                    pvcRef.ClaimName)
                | .ok (some pv) =>
                  if pv.Phase ≠ "Bound" then
                    .error ("volume " ++ volumeName ++ ": PV " ++ pvc.VolumeName ++
                      " phase is not Bound, instead " ++ pv.Phase)
                  else
                    match pv.GCEPersistentDisk with
                    | none =>
                      .error ("volume " ++ volumeName ++ ": PV " ++ pvc.VolumeName ++
                        " is not a GCEPersistentDisk")
                    | some pd =>
                      match pv.Labels with
                      | none =>
                        .error ("volume " ++ volumeName ++ ": PV " ++ pvc.VolumeName ++
                          " is missing labels")
                      | some labels =>
                        match List.lookup "failure-domain.beta.kubernetes.io/region" labels with
                        | none =>
                          .error ("volume " ++ volumeName ++ ": PV " ++ pvc.VolumeName ++
                            " missing failure-domain.beta.kubernetes.io/region label")
                        | some regionLabel =>
                          match List.lookup "failure-domain.beta.kubernetes.io/zone" labels with
                          | none =>
                            .error ("volume " ++ volumeName ++ ": PV " ++ pvc.VolumeName ++
                              " missing failure-domain.beta.kubernetes.io/zone label")
                          | some zoneLabel =>
                            if pd.Partition ≠ 0 then
                              .error ("volume " ++ volumeName ++ ": PD " ++ pd.PDName ++
                                " has more than one parition")
                            else if pd.ReadOnly = true then
                              .error ("volume " ++ volumeName ++ ": PD " ++ pd.PDName ++
                                " is read only")
                            else if pd.FSType ≠ "" ∧ pd.FSType ≠ "ext4" then
                              .error ("volume " ++ volumeName ++ ": PD " ++ pd.PDName ++
                                " is not a ext4 volume")
                            else
                              match ctx.resolveDevicePath volumeMount.MountPath with
                              | .error _ => .ok []
                              | .ok devicePath =>
                                if devicePath = "" then
                                  .error ("could not resolve device path for volume " ++
                                    volumeName)
                                else
                                  getMVLoop ctx mappedVolumes mappedVolumeMounts
                                    (acc ++ [⟨volumeName, volumeMount.MountPath,
                                      devicePath, pd.PDName, regionLabel, zoneLabel⟩])
                                    rest

/-- Embeds `getMountedVolumes(pod, container, volumes, clientset)`: the slice
is created with `make([]mountedGCEVolume, len(volumes))` — length, not
capacity — so it starts holding `len(volumes)` zero-valued records that the
loop then appends to. -/
def getMountedVolumes (ctx : ResolveCtx) (podVolumes : List PodVolume)
    (containerMounts : List VolumeMount) (volumes : List String) :
    Except String (List mountedGCEVolume) :=
  getMVLoop ctx (mapVolumes podVolumes) (mapVolumeMounts containerMounts)
    (List.replicate volumes.length mountedGCEVolumeZero) volumes

/- ### Concrete resolution scenarios for Claims C3 and C4 -/

/-- A pod volume "data" bound through a claim. -/
def podVolumeData : PodVolume :=
  { Name := "data", GCEPersistentDisk := none,
    PersistentVolumeClaim := some ⟨"data-claim"⟩ }

/-- The container mounts "data" at /data. -/
def mountData : VolumeMount := { Name := "data", MountPath := "/data" }

/-- The bound claim pointing at PV "pv-1". -/
def pvcData : PVClaim := { Phase := "Bound", VolumeName := "pv-1" }

/-- The bound PV: a single-partition, writable ext4 GCE PD with both
failure-domain labels. -/
def pvData : PersistentVolume :=
  { Phase := "Bound",
    GCEPersistentDisk := some ⟨"pd-1", "ext4", 0, false⟩,
    Labels := some [("failure-domain.beta.kubernetes.io/region", "us-west1"),
      ("failure-domain.beta.kubernetes.io/zone", "us-west1-a")] }

/-- A context in which every orchestrator read succeeds but the mount-table
query (`findmnt`) fails. -/
def ctxDevFail : ResolveCtx :=
  { nsName := "ns-1", podName := "pod-0", containerName := "app",
    getPVC := fun _ _ => .ok (some pvcData),
    getPV := fun _ => .ok (some pvData),
    resolveDevicePath := fun _ => .error "exit status 1" }

/-- The same context with the mount-table query succeeding. -/
def ctxDevOk : ResolveCtx :=
  { nsName := "ns-1", podName := "pod-0", containerName := "app",
    getPVC := fun _ _ => .ok (some pvcData),
    getPV := fun _ => .ok (some pvData),
    resolveDevicePath := fun _ => .ok "/dev/sdb" }

/-- Claim C3 (evidence of the code bug): when a volume passes every check but
its device path cannot be resolved, `getMountedVolumes` returns zero records
with a nil error (`return nil, nil`, line 390) — success with an empty set —
instead of failing the whole call with an error. -/
theorem getMountedVolumes_devicePathFailure_ok_empty :
    getMountedVolumes ctxDevFail [podVolumeData] [mountData] ["data"] =
      Except.ok ([] : List mountedGCEVolume) := by
  rfl

/-- Claim C4 (evidence of the code bug): on a fully successful resolution of
one volume, `getMountedVolumes` returns two records — the zero value the
slice was created with, then the resolved record — not one record per
requested name; main's own `len(gceVolumes) != len(volumes)` check then
kills the process. -/
theorem getMountedVolumes_success_double_length :
    getMountedVolumes ctxDevOk [podVolumeData] [mountData] ["data"] =
      Except.ok [mountedGCEVolumeZero,
        { Name := "data", MountedPath := "/data", DevicePath := "/dev/sdb",
          PDName := "pd-1", GCPRegion := "us-west1", GCPZone := "us-west1-a" }] ∧
    [mountedGCEVolumeZero,
      { Name := "data", MountedPath := "/data", DevicePath := "/dev/sdb",
        PDName := "pd-1", GCPRegion := "us-west1", GCPZone := "us-west1-a" }].length ≠
      ["data"].length := by
  exact ⟨rfl, by decide⟩
